import Mathlib

/-!
Verification development for the safaraya-service HTTP API.

The Go source is shallowly embedded: the relational store becomes an
explicit `Store` value threaded through each operation, nullable columns
become explicit `NullString` / `NullInt` / `NullBytes` values, byte
payloads become `List Nat`, UUIDs become their canonical strings, and
each HTTP handler becomes a function from (store, parsed request parts)
to (response, store).  Generated identifiers and timestamps are taken
from counters held in the store.
-/

namespace Safaraya

/-! ### Nullable columns (storage layer) and the optional-field codec -/

/-- A nullable text column as seen by the storage layer. -/
inductive NullString
  | null
  | val (s : String)
deriving DecidableEq, Repr

/-- A nullable integer column as seen by the storage layer. -/
inductive NullInt
  | null
  | val (n : Int)
deriving DecidableEq, Repr

/-- A nullable bytea column as seen by the storage layer. -/
inductive NullBytes
  | null
  | val (b : List Nat)
deriving DecidableEq, Repr

/-- pgx binding of a Go `*string` parameter: a nil pointer is bound as
SQL NULL, a non-nil pointer as its value. -/
def NullString.encode : Option String → NullString
  | none => .null
  | some s => .val s

/-- Scanning a text column through `sql.NullString` back into an optional
API field: `if name.Valid { u.Name = &name.String }`. -/
def NullString.decode : NullString → Option String
  | .null => none
  | .val s => some s

/-- pgx binding of a Go `*int` parameter. -/
def NullInt.encode : Option Int → NullInt
  | none => .null
  | some n => .val n

/-- Scanning an integer column through `sql.NullInt32` back into an
optional API field. -/
def NullInt.decode : NullInt → Option Int
  | .null => none
  | .val n => some n

/-- Go `cv_file IS NOT NULL`, the `has_cv` column of `fetchUsers`. -/
def NullBytes.isNotNull : NullBytes → Bool
  | .null => false
  | .val _ => true

/-- Scanning a bytea column into a Go `[]byte`: NULL scans to a nil
slice, i.e. zero-length bytes. -/
def NullBytes.scanBytes : NullBytes → List Nat
  | .null => []
  | .val b => b

/-! ### Storage rows and the store -/

/-- A row of the `users` table. -/
structure UserRow where
  id : Int
  name : NullString
  age : NullInt
  createdAt : Nat
  cvFile : NullBytes
deriving DecidableEq, Repr

/-- A row of the `registration` table. -/
structure RegistrationRow where
  registrationId : String
  fullName : String
  jobTitle : NullString
  addressFull : NullString
  whatsappNumber : String
  note : NullString
  applicantCount : Int
  visaType : NullString
  createdAt : Nat
  updatedAt : Nat
deriving DecidableEq, Repr

/-- A row of the `file_upload` table. -/
structure FileUploadRow where
  fileId : Nat
  registrationId : String
  fileType : String
  filename : String
  file : List Nat
  fileSize : Int
  createdAt : Nat
deriving DecidableEq, Repr

/-- The relational store: table contents plus the generators for
`id` / `registration_id` / `file_id` and the insert timestamp. -/
structure Store where
  users : List UserRow
  registrations : List RegistrationRow
  fileUploads : List FileUploadRow
  nextUserId : Int
  nextRegId : Nat
  nextFileId : Nat
  now : Nat
deriving DecidableEq, Repr

/-! ### API entities (model.go) -/

/-- The `User` API entity.  `cvFileDownloadURL = none` models the field
being omitted from the serialized JSON (`omitempty`). -/
structure User where
  id : Int
  name : Option String
  age : Option Int
  createdAt : Nat
  hasCV : Bool
  cvFileDownloadURL : Option String
deriving DecidableEq, Repr

/-- The `Registration` API entity. -/
structure Registration where
  registrationId : String
  fullName : String
  jobTitle : Option String
  addressFull : Option String
  whatsappNumber : String
  note : Option String
  applicantCount : Int
  visaType : Option String
  createdAt : Nat
  updatedAt : Nat
deriving DecidableEq, Repr

/-! ### Request payloads (handler.go) -/

/-- Decoded body of a user-creation request. -/
structure CreateUserRequest where
  name : Option String
  age : Option Int
deriving DecidableEq, Repr

/-- Decoded body of a registration-creation request. -/
structure CreateRegistrationRequest where
  fullName : String
  jobTitle : Option String
  addressFull : Option String
  whatsappNumber : String
  note : Option String
  applicantCount : Option Int
  visaType : Option String
deriving DecidableEq, Repr

/-! ### Repository operations (main.go) -/

/-- The sentinel errors of the repository layer. -/
inductive RepoError
  | userNotFound
  | registrationNotFound
  | fileNotFound
deriving DecidableEq, Repr

/-- Go `fetchUsers`: `SELECT id, name, age, created_at, cv_file IS NOT NULL
AS has_cv FROM users`, scanned row by row. -/
def fetchUsers (db : Store) : List User :=
  db.users.map fun r =>
    { id := r.id
      name := NullString.decode r.name
      age := NullInt.decode r.age
      createdAt := r.createdAt
      hasCV := NullBytes.isNotNull r.cvFile
      cvFileDownloadURL := none }

/-- Go `insertUser`: `INSERT INTO users (name, age) VALUES ($1, $2)
RETURNING id, name, age, created_at`; optional request fields are bound
through the nullable codec and scanned back the same way. -/
def insertUser (db : Store) (req : CreateUserRequest) : User × Store :=
  let row : UserRow :=
    { id := db.nextUserId
      name := NullString.encode req.name
      age := NullInt.encode req.age
      createdAt := db.now
      cvFile := NullBytes.null }
  let u : User :=
    { id := row.id
      name := NullString.decode row.name
      age := NullInt.decode row.age
      createdAt := row.createdAt
      hasCV := false
      cvFileDownloadURL := none }
  (u, { db with users := db.users ++ [row], nextUserId := db.nextUserId + 1 })

/-- Go `saveUserCV`: `UPDATE users SET cv_file = $2 WHERE id = $1`, issued
unconditionally; `errUserNotFound` exactly when the update reports zero
rows affected. -/
def saveUserCV (db : Store) (userID : Int) (cvData : List Nat) :
    Except RepoError Store :=
  let rowsAffected := (db.users.filter fun r => r.id == userID).length
  let updated := db.users.map fun r =>
    if r.id == userID then { r with cvFile := NullBytes.val cvData } else r
  if rowsAffected == 0 then .error .userNotFound
  else .ok { db with users := updated }

/-- Go `getUserCV`: `SELECT cv_file FROM users WHERE id = $1`;
`pgx.ErrNoRows` becomes `errUserNotFound`, a NULL column scans to nil
bytes. -/
def getUserCV (db : Store) (userID : Int) : Except RepoError (List Nat) :=
  match db.users.find? (fun r => r.id == userID) with
  | none => .error .userNotFound
  | some r => .ok (NullBytes.scanBytes r.cvFile)

/-- Go `insertRegistration`: defaults `applicant_count` to 1 when the
request omitted it, then `INSERT INTO registration (...) RETURNING ...`
with all other fields bound verbatim through the nullable codec. -/
def insertRegistration (db : Store) (req : CreateRegistrationRequest) :
    Registration × Store :=
  let applicantCount : Int :=
    match req.applicantCount with
    | none => 1
    | some v => v
  let row : RegistrationRow :=
    { registrationId := "generated-" ++ toString db.nextRegId
      fullName := req.fullName
      jobTitle := NullString.encode req.jobTitle
      addressFull := NullString.encode req.addressFull
      whatsappNumber := req.whatsappNumber
      note := NullString.encode req.note
      applicantCount := applicantCount
      visaType := NullString.encode req.visaType
      createdAt := db.now
      updatedAt := db.now }
  let reg : Registration :=
    { registrationId := row.registrationId
      fullName := row.fullName
      jobTitle := NullString.decode row.jobTitle
      addressFull := NullString.decode row.addressFull
      whatsappNumber := row.whatsappNumber
      note := NullString.decode row.note
      applicantCount := row.applicantCount
      visaType := NullString.decode row.visaType
      createdAt := row.createdAt
      updatedAt := row.updatedAt }
  (reg,
    { db with
        registrations := db.registrations ++ [row]
        nextRegId := db.nextRegId + 1 })

/-- Go `saveRegistrationFile`: `SELECT EXISTS (...)` existence pre-check on
the registration, then `INSERT INTO file_upload (...) RETURNING file_id`
with `file_size = len(data)`.  On a missing registration it returns
`errRegistrationNotFound` before the insert, so no file row is created. -/
def saveRegistrationFile (db : Store) (registrationID fileType fname : String)
    (data : List Nat) : Except RepoError (Nat × Store) :=
  let regExists := db.registrations.any fun r => r.registrationId == registrationID
  if !regExists then .error .registrationNotFound
  else
    let fileID := db.nextFileId
    let row : FileUploadRow :=
      { fileId := fileID
        registrationId := registrationID
        fileType := fileType
        filename := fname
        file := data
        fileSize := (data.length : Int)
        createdAt := db.now }
    .ok (fileID,
      { db with
          fileUploads := db.fileUploads ++ [row]
          nextFileId := fileID + 1 })

/-- Go `getRegistrationFile`: `SELECT ... FROM file_upload WHERE file_id =
$1`; `pgx.ErrNoRows` becomes `errFileNotFound`. -/
def getRegistrationFile (db : Store) (fileID : Nat) :
    Except RepoError FileUploadRow :=
  match db.fileUploads.find? (fun r => r.fileId == fileID) with
  | none => .error .fileNotFound
  | some rf => .ok rf

/-! ### HTTP surface: methods, responses, multipart forms -/

/-- The HTTP methods the handlers dispatch on. -/
inductive Method
  | get
  | post
  | put
  | delete
  | patch
  | head
deriving DecidableEq, Repr

/-- The possible JSON / binary response bodies. -/
inductive Body
  | errJson (code : String)
  | statusJson (st : String)
  | uploadedJson (st : String) (fileId : Nat)
  | userJson (u : User)
  | usersJson (us : List User)
  | registrationJson (r : Registration)
  | binary (data : List Nat) (contentType : String) (disposition : String)
      (contentLength : Option Int)
deriving DecidableEq, Repr

/-- An HTTP response: status code and body. -/
structure Response where
  status : Nat
  body : Body
deriving DecidableEq, Repr

/-- Shorthand for an error response `status` + `code`. -/
def errResp (status : Nat) (code : String) : Response :=
  { status := status, body := Body.errJson code }

/-- Go `maxUploadSize = 5 << 20`, as a Nat. -/
def maxUploadSizeNat : Nat := 5 * 2 ^ 20

/-- Go `const maxUploadSize = 5 << 20` (5 MiB). -/
def maxUploadSize : Int := (maxUploadSizeNat : Int)

/-- The result of `r.FormFile("file")` when a file part was present:
the part header (`header.Size`, `header.Header.Get("Content-Type")`,
`header.Filename`) and the bytes the part reader will deliver. -/
structure FilePart where
  declaredSize : Int
  content : List Nat
  contentType : String
  filename : String
deriving DecidableEq, Repr

/-- The multipart form as seen by `uploadUserCVHandler`:
whether `ParseMultipartForm` succeeded, and the `file` part if present. -/
structure CVUploadForm where
  parseOk : Bool
  filePart : Option FilePart
deriving DecidableEq, Repr

/-- The multipart form as seen by `uploadRegistrationFileHandler`
(registration id taken from the path): additionally carries the raw
`file_type` form value. -/
structure RegFileUploadForm where
  parseOk : Bool
  fileTypeField : String
  filePart : Option FilePart
deriving DecidableEq, Repr

/-- The multipart form as seen by `registrationFilesHandler`
(registration id taken from a form field). -/
structure RegFilesForm where
  parseOk : Bool
  registrationIdField : String
  fileTypeField : String
  filePart : Option FilePart
deriving DecidableEq, Repr

/-- Go `io.Copy(buf, io.LimitReader(file, maxUploadSize+1))`: the buffer
receives at most `maxUploadSize + 1` bytes of the part's content. -/
def readLimited (content : List Nat) : List Nat :=
  content.take (maxUploadSizeNat + 1)

/-- Go `strings.TrimSpace`: strips leading and trailing whitespace,
modelled on the character list (kernel-computable). -/
def trimSpace (s : String) : String :=
  ⟨((s.toList.dropWhile Char.isWhitespace).reverse.dropWhile
      Char.isWhitespace).reverse⟩

/-- Go `strings.HasPrefix`, modelled on the character lists. -/
def hasPrefixStr (s pre : String) : Bool :=
  pre.toList.isPrefixOf s.toList

/-- Lower-casing used when printing a parsed UUID, modelled on the
character list. -/
def lowerString (s : String) : String :=
  ⟨s.toList.map Char.toLower⟩

/-- Hex-digit test used by the UUID parser. -/
def isHexDigit (c : Char) : Bool :=
  c.isDigit || ('a' ≤ c && c ≤ 'f') || ('A' ≤ c && c ≤ 'F')

/-- Character check at position `i` of a canonical UUID string. -/
def uuidCharOk (i : Nat) (c : Char) : Bool :=
  if i == 8 || i == 13 || i == 18 || i == 23 then c == '-' else isHexDigit c

/-- Go `uuid.Parse` followed by `.String()`, modelled on the canonical
36-character `xxxxxxxx-xxxx-xxxx-xxxx-xxxxxxxxxxxx` form (the only form
this service's clients and generated ids use); the parsed value prints
in lower case. -/
def uuidParse (s : String) : Option String :=
  let cs := s.toList
  if cs.length == 36 && cs.enum.all (fun p => uuidCharOk p.1 p.2) then
    some (lowerString s)
  else none

/-- The fragment of `http.DetectContentType` this service observes: the
data is truncated to 512 bytes and matched against the sniffing table,
whose only rule producing `application/pdf` is the exact prefix
`%PDF-` (bytes 0x25 0x50 0x44 0x46 0x2D).  Other data is reported here
as `application/octet-stream`; the stdlib may return a more specific
type for it, but never `application/pdf`, and the handlers compare the
result only against `application/pdf`. -/
def detectContentType (data : List Nat) : String :=
  if [0x25, 0x50, 0x44, 0x46, 0x2D].isPrefixOf (data.take 512) then
    "application/pdf"
  else "application/octet-stream"

/-- Go `const serviceHost` (prod parameter from main.go). -/
def serviceHost : String := "https://safaraya-service.onrender.com"

/-- The request-derived inputs of `buildDownloadURL`: whether the
connection carried TLS and the Host header. -/
structure ReqCtx where
  tls : Bool
  host : String
deriving DecidableEq, Repr

/-- Go `buildDownloadURL`: scheme+host base, overridden by `serviceHost`
when that constant is an absolute URL, then the
`cvDownloadPathTemplate = "/users/%d/cv"` path. -/
def buildDownloadURL (ctx : ReqCtx) (userID : Int) : String :=
  let scheme := if ctx.tls then "https" else "http"
  let base := scheme ++ "://" ++ ctx.host
  let base :=
    if hasPrefixStr serviceHost "http://" || hasPrefixStr serviceHost "https://" then
      serviceHost
    else base
  base ++ "/users/" ++ toString userID ++ "/cv"

/-! ### Handlers (handler.go) -/

/-- Go `getUsersHandler`: fetch all users, then populate
`CvFileDownloadURL` for exactly those users whose `HasCV` flag is set. -/
def getUsersHandler (db : Store) (method : Method) (ctx : ReqCtx) :
    Response × Store :=
  if method ≠ Method.get then (errResp 405 "method_not_allowed", db)
  else
    let users := fetchUsers db
    let users := users.map fun u =>
      if u.hasCV then
        { u with cvFileDownloadURL := some (buildDownloadURL ctx u.id) }
      else u
    ({ status := 200, body := Body.usersJson users }, db)

/-- Go `createUserHandler`: method check, JSON decode (`none` models a
decode failure), then `insertUser`, answered with 201. -/
def createUserHandler (db : Store) (method : Method)
    (body : Option CreateUserRequest) : Response × Store :=
  if method ≠ Method.post then (errResp 405 "method_not_allowed", db)
  else
    match body with
    | none => (errResp 400 "invalid_json", db)
    | some req =>
      let res := insertUser db req
      ({ status := 201, body := Body.userJson res.1 }, res.2)

/-- Go `createRegistrationHandler`: method check, JSON decode, required
non-empty-after-trim checks on `full_name` and `whatsapp_number`, the
`applicant_count != nil && *applicant_count < 1` check, then
`insertRegistration`, answered with 201. -/
def createRegistrationHandler (db : Store) (method : Method)
    (body : Option CreateRegistrationRequest) : Response × Store :=
  if method ≠ Method.post then (errResp 405 "method_not_allowed", db)
  else
    match body with
    | none => (errResp 400 "invalid_json", db)
    | some req =>
      if trimSpace req.fullName == "" then (errResp 400 "full_name_required", db)
      else if trimSpace req.whatsappNumber == "" then
        (errResp 400 "whatsapp_number_required", db)
      else
        match req.applicantCount with
        | some v =>
          if v < 1 then (errResp 400 "invalid_applicant_count", db)
          else
            let res := insertRegistration db req
            ({ status := 201, body := Body.registrationJson res.1 }, res.2)
        | none =>
          let res := insertRegistration db req
          ({ status := 201, body := Body.registrationJson res.1 }, res.2)

/-- Go `registrationsHandler`: dispatches POST to
`createRegistrationHandler`, anything else to 405. -/
def registrationsHandler (db : Store) (method : Method)
    (body : Option CreateRegistrationRequest) : Response × Store :=
  match method with
  | Method.post => createRegistrationHandler db Method.post body
  | _ => (errResp 405 "method_not_allowed", db)

/-- Go `uploadUserCVHandler`: method check, multipart parse, file part,
declared-size ceiling, limited read with actual-size ceiling, empty
check, the sniffed-OR-header PDF check, then `saveUserCV`. -/
def uploadUserCVHandler (db : Store) (method : Method) (userID : Int)
    (form : CVUploadForm) : Response × Store :=
  if method ≠ Method.post then (errResp 405 "method_not_allowed", db)
  else if !form.parseOk then (errResp 400 "invalid_form", db)
  else
    match form.filePart with
    | none => (errResp 400 "file_required", db)
    | some part =>
      if part.declaredSize > maxUploadSize then (errResp 400 "file_too_large", db)
      else
        let cvData := readLimited part.content
        if (cvData.length : Int) > maxUploadSize then
          (errResp 400 "file_too_large", db)
        else if cvData.length == 0 then (errResp 400 "empty_file", db)
        else
          let mimeType := detectContentType cvData
          let contentTypeHeader := part.contentType
          if mimeType ≠ "application/pdf" ∧ contentTypeHeader ≠ "application/pdf" then
            (errResp 400 "invalid_file_type", db)
          else
            match saveUserCV db userID cvData with
            | .error e =>
              if e = RepoError.userNotFound then (errResp 404 "user_not_found", db)
              else (errResp 500 "internal_error", db)
            | .ok db2 => ({ status := 201, body := Body.statusJson "uploaded" }, db2)

/-- Go `downloadUserCVHandler`: method check, `getUserCV`, empty-bytes
check answered as `cv_not_found`, else the raw PDF bytes. -/
def downloadUserCVHandler (db : Store) (method : Method) (userID : Int) :
    Response × Store :=
  if method ≠ Method.get then (errResp 405 "method_not_allowed", db)
  else
    match getUserCV db userID with
    | .error e =>
      if e = RepoError.userNotFound then (errResp 404 "user_not_found", db)
      else (errResp 500 "internal_error", db)
    | .ok cvData =>
      if cvData.length == 0 then (errResp 404 "cv_not_found", db)
      else
        ({ status := 200
           body := Body.binary cvData "application/pdf"
             ("attachment; filename=\"cv-" ++ toString userID ++ ".pdf\"") none },
         db)

/-- Go `uploadRegistrationFileHandler` (registration id from the path):
method check, multipart parse, trimmed `file_type` requirement, file
part, both size ceilings, empty check, then `saveRegistrationFile`. -/
def uploadRegistrationFileHandler (db : Store) (method : Method)
    (registrationID : String) (form : RegFileUploadForm) : Response × Store :=
  if method ≠ Method.post then (errResp 405 "method_not_allowed", db)
  else if !form.parseOk then (errResp 400 "invalid_form", db)
  else
    let fileType := trimSpace form.fileTypeField
    if fileType == "" then (errResp 400 "file_type_required", db)
    else
      match form.filePart with
      | none => (errResp 400 "file_required", db)
      | some part =>
        if part.declaredSize > maxUploadSize then (errResp 400 "file_too_large", db)
        else
          let fileData := readLimited part.content
          if (fileData.length : Int) > maxUploadSize then
            (errResp 400 "file_too_large", db)
          else if fileData.length == 0 then (errResp 400 "empty_file", db)
          else
            match saveRegistrationFile db registrationID fileType part.filename fileData with
            | .error e =>
              if e = RepoError.registrationNotFound then
                (errResp 404 "registration_not_found", db)
              else (errResp 500 "internal_error", db)
            | .ok res =>
              ({ status := 201, body := Body.uploadedJson "uploaded" res.1 }, res.2)

/-- Go `registrationFilesHandler` (registration id from a form field):
method check, multipart parse, trimmed `registration_id` requirement
and UUID parse, trimmed `file_type` requirement, file part, both size
ceilings, empty check, then `saveRegistrationFile`. -/
def registrationFilesHandler (db : Store) (method : Method)
    (form : RegFilesForm) : Response × Store :=
  if method ≠ Method.post then (errResp 405 "method_not_allowed", db)
  else if !form.parseOk then (errResp 400 "invalid_form", db)
  else
    let regIDStr := trimSpace form.registrationIdField
    if regIDStr == "" then (errResp 400 "registration_id_required", db)
    else
      match uuidParse regIDStr with
      | none => (errResp 400 "invalid_registration_id", db)
      | some regID =>
        let fileType := trimSpace form.fileTypeField
        if fileType == "" then (errResp 400 "file_type_required", db)
        else
          match form.filePart with
          | none => (errResp 400 "file_required", db)
          | some part =>
            if part.declaredSize > maxUploadSize then
              (errResp 400 "file_too_large", db)
            else
              let fileData := readLimited part.content
              if (fileData.length : Int) > maxUploadSize then
                (errResp 400 "file_too_large", db)
              else if fileData.length == 0 then (errResp 400 "empty_file", db)
              else
                match saveRegistrationFile db regID fileType part.filename fileData with
                | .error e =>
                  if e = RepoError.registrationNotFound then
                    (errResp 404 "registration_not_found", db)
                  else (errResp 500 "internal_error", db)
                | .ok res =>
                  ({ status := 201, body := Body.uploadedJson "uploaded" res.1 }, res.2)

/-- Go `downloadRegistrationFileHandler`: method check,
`getRegistrationFile`, empty-bytes check answered as `file_not_found`,
else the raw bytes with sniffed content type, attachment disposition
carrying the stored filename, and `Content-Length` when the stored size
is positive. -/
def downloadRegistrationFileHandler (db : Store) (method : Method)
    (fileID : Nat) : Response × Store :=
  if method ≠ Method.get then (errResp 405 "method_not_allowed", db)
  else
    match getRegistrationFile db fileID with
    | .error e =>
      if e = RepoError.fileNotFound then (errResp 404 "file_not_found", db)
      else (errResp 500 "internal_error", db)
    | .ok rf =>
      if rf.file.length == 0 then (errResp 404 "file_not_found", db)
      else
        let contentType := detectContentType rf.file
        ({ status := 200
           body := Body.binary rf.file contentType
             ("attachment; filename=\"" ++ rf.filename ++ "\"")
             (if rf.fileSize > 0 then some rf.fileSize else none) },
         db)

/-! ### Helper lemmas -/

/-- The nullable codec round-trips optional strings. -/
theorem NullString.decodeEncodeId (o : Option String) :
    NullString.decode (NullString.encode o) = o := by
  cases o <;> rfl

/-- The nullable codec round-trips optional integers. -/
theorem NullInt.decodeEncodeIdInt (o : Option Int) :
    NullInt.decode (NullInt.encode o) = o := by
  cases o <;> rfl

/-- A payload within the size ceiling is read in full by the limited
reader. -/
theorem readLimited_of_le (content : List Nat)
    (h : (content.length : Int) ≤ maxUploadSize) : readLimited content = content := by
  unfold readLimited
  apply List.take_of_length_le
  have h2 : content.length ≤ maxUploadSizeNat := by
    unfold maxUploadSize at h
    exact_mod_cast h
  omega

/-- Go `saveUserCV` only ever fails with `userNotFound`. -/
theorem saveUserCV_error (db : Store) (userID : Int) (data : List Nat)
    (e : RepoError) (h : saveUserCV db userID data = .error e) :
    e = RepoError.userNotFound := by
  unfold saveUserCV at h
  by_cases hc : (db.users.filter fun r => r.id == userID).length = 0
  · simp [hc] at h
    exact h.symm
  · simp [hc] at h

/-- Go `saveRegistrationFile` only ever fails with `registrationNotFound`. -/
theorem saveRegistrationFile_error (db : Store) (regID ft fn : String)
    (data : List Nat) (e : RepoError)
    (h : saveRegistrationFile db regID ft fn data = .error e) :
    e = RepoError.registrationNotFound := by
  unfold saveRegistrationFile at h
  by_cases hc : (db.registrations.any fun r => r.registrationId == regID) = true
  · simp [hc] at h
  · simp [hc] at h
    exact h.symm

/-! ### Claim theorems -/

/-- C6: `saveUserCV` issues the update unconditionally (no existence
pre-check) and returns `UserNotFound` exactly when the update affects
zero rows; when at least one row is affected it succeeds with the
updated store and no error. -/
theorem C6_saveUserCV_rows_affected (db : Store) (userID : Int) (data : List Nat) :
    (saveUserCV db userID data = .error RepoError.userNotFound
      ↔ (db.users.filter fun r => r.id == userID).length = 0)
    ∧ ((db.users.filter fun r => r.id == userID).length ≠ 0 →
      saveUserCV db userID data
        = .ok { db with users := db.users.map fun r =>
            if r.id == userID then { r with cvFile := NullBytes.val data } else r }) := by
  unfold saveUserCV
  constructor
  · constructor
    · intro h
      by_contra hne
      simp only [beq_iff_eq, if_neg hne] at h
      exact absurd h (by simp)
    · intro h
      simp [h]
  · intro h
    simp only [beq_iff_eq, if_neg h]

/-- C8: for every successful user-creation request, the optional
`name` and `age` fields are encoded as storage nulls when absent and
values when present, and the returned user decodes them back to exactly
the submitted payload. -/
theorem C8_insertUser_roundtrip (db : Store) (req : CreateUserRequest) :
    ∃ row : UserRow,
      (insertUser db req).2.users = db.users ++ [row]
      ∧ row.name = NullString.encode req.name
      ∧ row.age = NullInt.encode req.age
      ∧ (insertUser db req).1.name = NullString.decode row.name
      ∧ (insertUser db req).1.age = NullInt.decode row.age
      ∧ (insertUser db req).1.name = req.name
      ∧ (insertUser db req).1.age = req.age
      ∧ createUserHandler db Method.post (some req)
        = ({ status := 201, body := Body.userJson (insertUser db req).1 },
           (insertUser db req).2) := by
  refine ⟨_, rfl, rfl, rfl, rfl, rfl, ?_, ?_, rfl⟩
  · exact NullString.decodeEncodeId req.name
  · exact NullInt.decodeEncodeIdInt req.age

/-- C4: `saveRegistrationFile` against a nonexistent registration
returns `RegistrationNotFound` without inserting a file row, and the
upload handler maps it to 404 `registration_not_found` with the store
unchanged. -/
theorem C4_saveRegistrationFile_precheck (db : Store) (regID ft fn : String)
    (data : List Nat) (ftF : String) (part : FilePart)
    (habs : ∀ r ∈ db.registrations, r.registrationId ≠ regID)
    (hft : trimSpace ftF ≠ "")
    (hdecl : part.declaredSize ≤ maxUploadSize)
    (hlen : (part.content.length : Int) ≤ maxUploadSize)
    (hne : part.content ≠ []) :
    saveRegistrationFile db regID ft fn data = .error RepoError.registrationNotFound
    ∧ uploadRegistrationFileHandler db Method.post regID ⟨true, ftF, some part⟩
        = (errResp 404 "registration_not_found", db) := by
  have hex : (db.registrations.any fun r => r.registrationId == regID) = false := by
    simp only [List.any_eq_false, beq_iff_eq]
    exact habs
  have hsave : ∀ ft2 fn2 data2, saveRegistrationFile db regID ft2 fn2 data2
      = .error RepoError.registrationNotFound := by
    intro ft2 fn2 data2
    unfold saveRegistrationFile
    simp [hex]
  refine ⟨hsave ft fn data, ?_⟩
  unfold uploadRegistrationFileHandler
  simp only [readLimited_of_le part.content hlen]
  have hftb : (trimSpace ftF == "") = false := by
    simpa using hft
  have hlenb : (part.content.length == 0) = false := by
    simp [hne]
  simp [hftb, hlenb, not_lt.mpr hdecl, not_lt.mpr hlen, hsave]

/-- Every user produced by `fetchUsers` has no download URL yet. -/
theorem fetchUsers_url_none (db : Store) (u : User) (h : u ∈ fetchUsers db) :
    u.cvFileDownloadURL = none := by
  unfold fetchUsers at h
  simp only [List.mem_map] at h
  obtain ⟨r, _, rfl⟩ := h
  rfl

/-- C3: on a registration-creation request passing the required-field
checks, an absent `applicant_count` is bound and stored as exactly 1, a
present value below 1 is rejected with `invalid_applicant_count` and no
insert is issued, and a present value of at least 1 is bound and stored
unchanged. -/
theorem C3_applicant_count_rules (db : Store) (req : CreateRegistrationRequest)
    (hfn : trimSpace req.fullName ≠ "") (hwa : trimSpace req.whatsappNumber ≠ "") :
    (req.applicantCount = none →
      ∃ row : RegistrationRow,
        createRegistrationHandler db Method.post (some req)
          = ({ status := 201, body := Body.registrationJson (insertRegistration db req).1 },
             (insertRegistration db req).2)
        ∧ (insertRegistration db req).1.applicantCount = 1
        ∧ (insertRegistration db req).2.registrations = db.registrations ++ [row]
        ∧ row.applicantCount = 1)
    ∧ (∀ v : Int, req.applicantCount = some v → v < 1 →
        createRegistrationHandler db Method.post (some req)
          = (errResp 400 "invalid_applicant_count", db))
    ∧ (∀ v : Int, req.applicantCount = some v → 1 ≤ v →
        ∃ row : RegistrationRow,
          createRegistrationHandler db Method.post (some req)
            = ({ status := 201, body := Body.registrationJson (insertRegistration db req).1 },
               (insertRegistration db req).2)
          ∧ (insertRegistration db req).1.applicantCount = v
          ∧ (insertRegistration db req).2.registrations = db.registrations ++ [row]
          ∧ row.applicantCount = v) := by
  have hfnb : (trimSpace req.fullName == "") = false := by simpa using hfn
  have hwab : (trimSpace req.whatsappNumber == "") = false := by simpa using hwa
  refine ⟨?_, ?_, ?_⟩
  · intro hnone
    refine ⟨_, ?_, ?_, rfl, ?_⟩
    · unfold createRegistrationHandler
      simp [hfnb, hwab, hnone]
    · simp [insertRegistration, hnone]
    · simp [hnone]
  · intro v hv hlt
    unfold createRegistrationHandler
    simp [hfnb, hwab, hv, hlt]
  · intro v hv hge
    refine ⟨_, ?_, ?_, rfl, ?_⟩
    · unfold createRegistrationHandler
      simp [hfnb, hwab, hv, not_lt.mpr hge]
    · simp [insertRegistration, hv]
    · simp [hv]

/-- C10: a registration-creation request passing validation stores and
returns `full_name` and `whatsapp_number` verbatim, including any
leading or trailing whitespace; trimming is used only for the
non-emptiness test. -/
theorem C10_required_strings_verbatim (db : Store) (req : CreateRegistrationRequest)
    (hfn : trimSpace req.fullName ≠ "") (hwa : trimSpace req.whatsappNumber ≠ "")
    (hac : ∀ v : Int, req.applicantCount = some v → 1 ≤ v) :
    ∃ row : RegistrationRow,
      createRegistrationHandler db Method.post (some req)
        = ({ status := 201, body := Body.registrationJson (insertRegistration db req).1 },
           (insertRegistration db req).2)
      ∧ (insertRegistration db req).1.fullName = req.fullName
      ∧ (insertRegistration db req).1.whatsappNumber = req.whatsappNumber
      ∧ (insertRegistration db req).2.registrations = db.registrations ++ [row]
      ∧ row.fullName = req.fullName
      ∧ row.whatsappNumber = req.whatsappNumber := by
  have hfnb : (trimSpace req.fullName == "") = false := by simpa using hfn
  have hwab : (trimSpace req.whatsappNumber == "") = false := by simpa using hwa
  refine ⟨_, ?_, rfl, rfl, rfl, rfl, rfl⟩
  unfold createRegistrationHandler
  cases hv : req.applicantCount with
  | none => simp [hfnb, hwab, hv]
  | some v => simp [hfnb, hwab, hv, not_lt.mpr (hac v hv)]

/-- C7: in the fetch-all-users response, `cv_file_download_url` is
present if and only if the user's `hasCV` flag is true. -/
theorem C7_download_url_iff_hasCV (db : Store) (ctx : ReqCtx)
    (us : List User) (u : User)
    (hbody : (getUsersHandler db Method.get ctx).1.body = Body.usersJson us)
    (hu : u ∈ us) :
    u.cvFileDownloadURL.isSome = u.hasCV := by
  have hb : (getUsersHandler db Method.get ctx).1.body
      = Body.usersJson ((fetchUsers db).map fun v =>
          if v.hasCV then
            { v with cvFileDownloadURL := some (buildDownloadURL ctx v.id) }
          else v) := rfl
  rw [hb] at hbody
  simp only [Body.usersJson.injEq] at hbody
  rw [← hbody] at hu
  simp only [List.mem_map] at hu
  obtain ⟨u0, hu0, rfl⟩ := hu
  by_cases hcv : u0.hasCV
  · simp [hcv]
  · simp [hcv, fetchUsers_url_none db u0 hu0]

/-- C9: every mutating handler answers a non-POST method with 405
`method_not_allowed` and an unchanged store, before any body parsing or
repository call. -/
theorem C9_wrong_method_rejected (db : Store) (m : Method) (userID : Int)
    (regID : String) (cvForm : CVUploadForm) (rform : RegFileUploadForm)
    (fform : RegFilesForm) (rbody : Option CreateRegistrationRequest)
    (ubody : Option CreateUserRequest) (hm : m ≠ Method.post) :
    registrationsHandler db m rbody = (errResp 405 "method_not_allowed", db)
    ∧ createRegistrationHandler db m rbody = (errResp 405 "method_not_allowed", db)
    ∧ createUserHandler db m ubody = (errResp 405 "method_not_allowed", db)
    ∧ uploadUserCVHandler db m userID cvForm = (errResp 405 "method_not_allowed", db)
    ∧ uploadRegistrationFileHandler db m regID rform
        = (errResp 405 "method_not_allowed", db)
    ∧ registrationFilesHandler db m fform = (errResp 405 "method_not_allowed", db) := by
  refine ⟨?_, ?_, ?_, ?_, ?_, ?_⟩
  · cases m <;> first | rfl | exact absurd rfl hm
  · unfold createRegistrationHandler
    rw [if_pos hm]
  · unfold createUserHandler
    rw [if_pos hm]
  · unfold uploadUserCVHandler
    rw [if_pos hm]
  · unfold uploadRegistrationFileHandler
    rw [if_pos hm]
  · unfold registrationFilesHandler
    rw [if_pos hm]

/-- C1: with a parsed form, a non-empty payload and both size checks
passed, the CV upload is rejected with `invalid_file_type` (status 400,
store untouched) exactly when both the sniffed type and the declared
Content-Type header differ from `application/pdf`; if either matches,
the upload proceeds to the storage call and is answered by its
outcome. -/
theorem C1_cv_type_or_logic (db : Store) (userID : Int) (part : FilePart)
    (hdecl : part.declaredSize ≤ maxUploadSize)
    (hlen : (part.content.length : Int) ≤ maxUploadSize)
    (hne : part.content ≠ []) :
    (uploadUserCVHandler db Method.post userID ⟨true, some part⟩
        = (errResp 400 "invalid_file_type", db)
      ↔ (detectContentType part.content ≠ "application/pdf"
          ∧ part.contentType ≠ "application/pdf"))
    ∧ ((detectContentType part.content = "application/pdf"
        ∨ part.contentType = "application/pdf") →
      (uploadUserCVHandler db Method.post userID ⟨true, some part⟩
          = (errResp 404 "user_not_found", db)
        ∧ saveUserCV db userID part.content = .error RepoError.userNotFound)
      ∨ (∃ db2, saveUserCV db userID part.content = .ok db2
          ∧ uploadUserCVHandler db Method.post userID ⟨true, some part⟩
            = ({ status := 201, body := Body.statusJson "uploaded" }, db2))) := by
  have hlenb : (part.content.length == 0) = false := by simp [hne]
  have hred : uploadUserCVHandler db Method.post userID ⟨true, some part⟩
      = (if detectContentType part.content ≠ "application/pdf"
            ∧ part.contentType ≠ "application/pdf" then
          (errResp 400 "invalid_file_type", db)
        else
          match saveUserCV db userID part.content with
          | .error e =>
            if e = RepoError.userNotFound then (errResp 404 "user_not_found", db)
            else (errResp 500 "internal_error", db)
          | .ok db2 => ({ status := 201, body := Body.statusJson "uploaded" }, db2)) := by
    unfold uploadUserCVHandler
    simp [readLimited_of_le part.content hlen, not_lt.mpr hdecl, not_lt.mpr hlen, hlenb]
  constructor
  · rw [hred]
    by_cases hc : detectContentType part.content ≠ "application/pdf"
        ∧ part.contentType ≠ "application/pdf"
    · simp [hc]
    · rw [if_neg hc]
      simp only [iff_false_intro hc, iff_false]
      cases hsave : saveUserCV db userID part.content with
      | error e =>
        rw [saveUserCV_error db userID part.content e hsave]
        simp [errResp]
      | ok db2 => simp [errResp]
  · intro hor
    have hc : ¬(detectContentType part.content ≠ "application/pdf"
        ∧ part.contentType ≠ "application/pdf") := by tauto
    rw [hred, if_neg hc]
    cases hsave : saveUserCV db userID part.content with
    | error e =>
      left
      have he := saveUserCV_error db userID part.content e hsave
      subst he
      exact ⟨by simp, rfl⟩
    | ok db2 =>
      right
      exact ⟨db2, rfl, by simp⟩

/-- C2: every upload endpoint rejects with `file_too_large` and an
unchanged store whenever the declared part size or the actual bytes
read exceed 5 MiB; the actual-size check reads at most 5 MiB + 1 bytes
and rejects exactly when more than 5 MiB were read, so with both the
declared and the actual size at most 5 MiB (in particular exactly
5 MiB) no size rejection occurs. -/
theorem C2_size_ceiling (db : Store) (userID : Int) (regID : String)
    (regIDF ftF : String) (part : FilePart)
    (hft : trimSpace ftF ≠ "")
    (hrid : trimSpace regIDF ≠ "")
    (hparse : (uuidParse (trimSpace regIDF)).isSome = true) :
    ((part.declaredSize > maxUploadSize ∨ (part.content.length : Int) > maxUploadSize) →
      uploadUserCVHandler db Method.post userID ⟨true, some part⟩
        = (errResp 400 "file_too_large", db)
      ∧ uploadRegistrationFileHandler db Method.post regID ⟨true, ftF, some part⟩
        = (errResp 400 "file_too_large", db)
      ∧ registrationFilesHandler db Method.post ⟨true, regIDF, ftF, some part⟩
        = (errResp 400 "file_too_large", db))
    ∧ (part.declaredSize ≤ maxUploadSize → (part.content.length : Int) ≤ maxUploadSize →
      (uploadUserCVHandler db Method.post userID ⟨true, some part⟩).1
        ≠ errResp 400 "file_too_large"
      ∧ (uploadRegistrationFileHandler db Method.post regID ⟨true, ftF, some part⟩).1
        ≠ errResp 400 "file_too_large"
      ∧ (registrationFilesHandler db Method.post ⟨true, regIDF, ftF, some part⟩).1
        ≠ errResp 400 "file_too_large") := by
  have hftb : (trimSpace ftF == "") = false := by simpa using hft
  have hridb : (trimSpace regIDF == "") = false := by simpa using hrid
  obtain ⟨rid, hpar⟩ := Option.isSome_iff_exists.mp hparse
  constructor
  · intro hbig
    by_cases hd : part.declaredSize > maxUploadSize
    · refine ⟨?_, ?_, ?_⟩
      · unfold uploadUserCVHandler
        simp [hd]
      · unfold uploadRegistrationFileHandler
        simp [hftb, hd]
      · unfold registrationFilesHandler
        simp [hridb, hpar, hftb, hd]
    · have hlen : (part.content.length : Int) > maxUploadSize := by tauto
      have hlenN : maxUploadSizeNat < part.content.length := by
        unfold maxUploadSize at hlen
        exact_mod_cast hlen
      have hn : ((readLimited part.content).length : Int) > maxUploadSize := by
        unfold readLimited
        rw [List.length_take]
        rw [min_eq_left (by omega)]
        unfold maxUploadSize
        push_cast
        omega
      refine ⟨?_, ?_, ?_⟩
      · unfold uploadUserCVHandler
        simp [not_lt.mpr (not_lt.mp hd), hn]
      · unfold uploadRegistrationFileHandler
        simp [hftb, not_lt.mpr (not_lt.mp hd), hn]
      · unfold registrationFilesHandler
        simp [hridb, hpar, hftb, not_lt.mpr (not_lt.mp hd), hn]
  · intro hd hl
    refine ⟨?_, ?_, ?_⟩
    · unfold uploadUserCVHandler
      simp only [readLimited_of_le part.content hl]
      simp [not_lt.mpr hd, not_lt.mpr hl]
      repeat' split
      all_goals simp [errResp]
    · unfold uploadRegistrationFileHandler
      simp only [readLimited_of_le part.content hl]
      simp [hftb, not_lt.mpr hd, not_lt.mpr hl]
      repeat' split
      all_goals simp [errResp]
    · unfold registrationFilesHandler
      simp only [readLimited_of_le part.content hl]
      simp [hridb, hpar, hftb, not_lt.mpr hd, not_lt.mpr hl]
      repeat' split
      all_goals simp [errResp]

/-- C5: a download whose storage row exists but whose stored blob is
zero-length is answered 404 with the entity-appropriate not-found code,
exactly like an absent row; the raw-binary 200 path is taken only for a
non-empty blob. -/
theorem C5_empty_blob_as_not_found (db : Store) (userID : Int) (fileID : Nat)
    (r : UserRow) (rf : FileUploadRow) (userID2 : Int) (fileID2 : Nat)
    (hu : db.users.find? (fun x => x.id == userID) = some r)
    (hcv : r.cvFile = NullBytes.val [])
    (hf : getRegistrationFile db fileID = .ok rf)
    (hrf : rf.file = []) :
    downloadUserCVHandler db Method.get userID = (errResp 404 "cv_not_found", db)
    ∧ downloadRegistrationFileHandler db Method.get fileID
        = (errResp 404 "file_not_found", db)
    ∧ ((downloadUserCVHandler db Method.get userID2).1.status = 200 →
        ∃ d, getUserCV db userID2 = .ok d ∧ d ≠ []
          ∧ (downloadUserCVHandler db Method.get userID2).1.body
            = Body.binary d "application/pdf"
              ("attachment; filename=\"cv-" ++ toString userID2 ++ ".pdf\"") none)
    ∧ ((downloadRegistrationFileHandler db Method.get fileID2).1.status = 200 →
        ∃ rf2, getRegistrationFile db fileID2 = .ok rf2 ∧ rf2.file ≠ []
          ∧ (downloadRegistrationFileHandler db Method.get fileID2).1.body
            = Body.binary rf2.file (detectContentType rf2.file)
              ("attachment; filename=\"" ++ rf2.filename ++ "\"")
              (if rf2.fileSize > 0 then some rf2.fileSize else none)) := by
  refine ⟨?_, ?_, ?_, ?_⟩
  · unfold downloadUserCVHandler getUserCV
    simp [hu, hcv, NullBytes.scanBytes]
  · unfold downloadRegistrationFileHandler
    simp [hf, hrf]
  · intro hst
    cases hg : getUserCV db userID2 with
    | error e =>
      unfold downloadUserCVHandler at hst
      by_cases he : e = RepoError.userNotFound <;> simp [hg, he, errResp] at hst
    | ok d =>
      by_cases hd : d.length = 0
      · unfold downloadUserCVHandler at hst
        simp [hg, hd, errResp] at hst
      · refine ⟨d, rfl, by simpa using hd, ?_⟩
        unfold downloadUserCVHandler
        simp [hg, hd]
  · intro hst
    cases hg : getRegistrationFile db fileID2 with
    | error e =>
      unfold downloadRegistrationFileHandler at hst
      by_cases he : e = RepoError.fileNotFound <;> simp [hg, he, errResp] at hst
    | ok rf2 =>
      by_cases hd : rf2.file.length = 0
      · unfold downloadRegistrationFileHandler at hst
        simp [hg, hd, errResp] at hst
      · refine ⟨rf2, rfl, by simpa using hd, ?_⟩
        unfold downloadRegistrationFileHandler
        simp [hg, hd]

/-! ### Concrete sample data for witnesses -/

/-- Sample user row: id 1, named, no age, no CV. -/
def wUser : UserRow := ⟨1, NullString.val "bob", NullInt.null, 5, NullBytes.null⟩

/-- Sample user row with a stored zero-length CV blob. -/
def wEmptyCvUser : UserRow := ⟨2, NullString.null, NullInt.null, 5, NullBytes.val []⟩

/-- Sample canonical UUID string. -/
def wUUID : String := "11111111-2222-3333-4444-555555555555"

/-- Sample registration row under `wUUID`. -/
def wReg : RegistrationRow := ⟨wUUID, "Alice", .null, .null, "0812", .null, 1, .null, 3, 3⟩

/-- Sample file row with a zero-length blob. -/
def wEmptyFile : FileUploadRow := ⟨7, wUUID, "passport", "p.png", [], 0, 3⟩

/-- Sample store: one user, no registrations, no files. -/
def wDb : Store := ⟨[wUser], [], [], 2, 0, 0, 9⟩

/-- Sample store with the empty-blob user and file rows. -/
def wDb2 : Store := ⟨[wUser, wEmptyCvUser], [wReg], [wEmptyFile], 3, 1, 8, 9⟩

/-- The 5-byte `%PDF-` signature. -/
def wPdf : List Nat := [37, 80, 68, 70, 45]

/-- Sample in-ceiling PDF-sniffable part with a non-PDF header. -/
def wPart : FilePart := ⟨5, wPdf, "text/plain", "cv.pdf"⟩

/-- Sample part whose declared size exceeds the ceiling. -/
def wBigPart : FilePart := ⟨maxUploadSize + 1, [7], "application/pdf", "big.bin"⟩

/-- Sample registration-creation request with whitespace-padded name. -/
def wReq3 : CreateRegistrationRequest := ⟨" Alice ", none, none, "0812", none, none, none⟩

/-- Sample registration-creation request with whitespace-padded
required fields. -/
def wReq10 : CreateRegistrationRequest := ⟨" Alice ", none, none, " 0812 ", none, none, none⟩

/-- Sample user-creation request. -/
def wReq8 : CreateUserRequest := ⟨some "amy", none⟩

/-! ### Witnesses -/

/-- Witness for C1 at a concrete store and file part. -/
theorem C1_cv_type_or_logic_witness :
    (wPart.declaredSize ≤ maxUploadSize
      ∧ (wPart.content.length : Int) ≤ maxUploadSize
      ∧ wPart.content ≠ [])
    ∧ ((uploadUserCVHandler wDb Method.post 1 ⟨true, some wPart⟩
          = (errResp 400 "invalid_file_type", wDb)
        ↔ (detectContentType wPart.content ≠ "application/pdf"
            ∧ wPart.contentType ≠ "application/pdf"))
      ∧ ((detectContentType wPart.content = "application/pdf"
          ∨ wPart.contentType = "application/pdf") →
        (uploadUserCVHandler wDb Method.post 1 ⟨true, some wPart⟩
            = (errResp 404 "user_not_found", wDb)
          ∧ saveUserCV wDb 1 wPart.content = .error RepoError.userNotFound)
        ∨ (∃ db2, saveUserCV wDb 1 wPart.content = .ok db2
            ∧ uploadUserCVHandler wDb Method.post 1 ⟨true, some wPart⟩
              = ({ status := 201, body := Body.statusJson "uploaded" }, db2)))) :=
  ⟨⟨by decide, by decide, by decide⟩,
   C1_cv_type_or_logic wDb 1 wPart (by decide) (by decide) (by decide)⟩

/-- Witness for C2 at a concrete store and an oversized declared part. -/
theorem C2_size_ceiling_witness :
    (trimSpace "passport" ≠ ""
      ∧ trimSpace wUUID ≠ ""
      ∧ (uuidParse (trimSpace wUUID)).isSome = true)
    ∧ (((wBigPart.declaredSize > maxUploadSize
          ∨ (wBigPart.content.length : Int) > maxUploadSize) →
        uploadUserCVHandler wDb Method.post 1 ⟨true, some wBigPart⟩
          = (errResp 400 "file_too_large", wDb)
        ∧ uploadRegistrationFileHandler wDb Method.post wUUID ⟨true, "passport", some wBigPart⟩
          = (errResp 400 "file_too_large", wDb)
        ∧ registrationFilesHandler wDb Method.post ⟨true, wUUID, "passport", some wBigPart⟩
          = (errResp 400 "file_too_large", wDb))
      ∧ (wBigPart.declaredSize ≤ maxUploadSize →
          (wBigPart.content.length : Int) ≤ maxUploadSize →
        (uploadUserCVHandler wDb Method.post 1 ⟨true, some wBigPart⟩).1
          ≠ errResp 400 "file_too_large"
        ∧ (uploadRegistrationFileHandler wDb Method.post wUUID
            ⟨true, "passport", some wBigPart⟩).1
          ≠ errResp 400 "file_too_large"
        ∧ (registrationFilesHandler wDb Method.post
            ⟨true, wUUID, "passport", some wBigPart⟩).1
          ≠ errResp 400 "file_too_large")) :=
  ⟨⟨by decide, by decide, by decide⟩,
   C2_size_ceiling wDb 1 wUUID wUUID "passport" wBigPart
     (by decide) (by decide) (by decide)⟩

/-- Witness for C3 at a concrete store and request. -/
theorem C3_applicant_count_rules_witness :
    (trimSpace wReq3.fullName ≠ "" ∧ trimSpace wReq3.whatsappNumber ≠ "")
    ∧ ((wReq3.applicantCount = none →
        ∃ row : RegistrationRow,
          createRegistrationHandler wDb Method.post (some wReq3)
            = ({ status := 201,
                 body := Body.registrationJson (insertRegistration wDb wReq3).1 },
               (insertRegistration wDb wReq3).2)
          ∧ (insertRegistration wDb wReq3).1.applicantCount = 1
          ∧ (insertRegistration wDb wReq3).2.registrations = wDb.registrations ++ [row]
          ∧ row.applicantCount = 1)
      ∧ (∀ v : Int, wReq3.applicantCount = some v → v < 1 →
          createRegistrationHandler wDb Method.post (some wReq3)
            = (errResp 400 "invalid_applicant_count", wDb))
      ∧ (∀ v : Int, wReq3.applicantCount = some v → 1 ≤ v →
          ∃ row : RegistrationRow,
            createRegistrationHandler wDb Method.post (some wReq3)
              = ({ status := 201,
                   body := Body.registrationJson (insertRegistration wDb wReq3).1 },
                 (insertRegistration wDb wReq3).2)
            ∧ (insertRegistration wDb wReq3).1.applicantCount = v
            ∧ (insertRegistration wDb wReq3).2.registrations = wDb.registrations ++ [row]
            ∧ row.applicantCount = v)) :=
  ⟨⟨by decide, by decide⟩,
   C3_applicant_count_rules wDb wReq3 (by decide) (by decide)⟩

/-- Witness for C4 at a store with no registrations. -/
theorem C4_saveRegistrationFile_precheck_witness :
    ((∀ r ∈ wDb.registrations, r.registrationId ≠ wUUID)
      ∧ trimSpace "passport" ≠ ""
      ∧ wPart.declaredSize ≤ maxUploadSize
      ∧ (wPart.content.length : Int) ≤ maxUploadSize
      ∧ wPart.content ≠ [])
    ∧ (saveRegistrationFile wDb wUUID "t" "f" [1] = .error RepoError.registrationNotFound
      ∧ uploadRegistrationFileHandler wDb Method.post wUUID ⟨true, "passport", some wPart⟩
          = (errResp 404 "registration_not_found", wDb)) :=
  ⟨⟨by decide, by decide, by decide, by decide, by decide⟩,
   C4_saveRegistrationFile_precheck wDb wUUID "t" "f" [1] "passport" wPart
     (by decide) (by decide) (by decide) (by decide) (by decide)⟩

/-- Witness for C5 at a store holding an empty CV blob and an empty
file blob. -/
theorem C5_empty_blob_as_not_found_witness :
    (wDb2.users.find? (fun x => x.id == 2) = some wEmptyCvUser
      ∧ wEmptyCvUser.cvFile = NullBytes.val []
      ∧ getRegistrationFile wDb2 7 = .ok wEmptyFile
      ∧ wEmptyFile.file = [])
    ∧ (downloadUserCVHandler wDb2 Method.get 2 = (errResp 404 "cv_not_found", wDb2)
      ∧ downloadRegistrationFileHandler wDb2 Method.get 7
          = (errResp 404 "file_not_found", wDb2)
      ∧ ((downloadUserCVHandler wDb2 Method.get 1).1.status = 200 →
          ∃ d, getUserCV wDb2 1 = .ok d ∧ d ≠ []
            ∧ (downloadUserCVHandler wDb2 Method.get 1).1.body
              = Body.binary d "application/pdf"
                ("attachment; filename=\"cv-" ++ toString (1 : Int) ++ ".pdf\"") none)
      ∧ ((downloadRegistrationFileHandler wDb2 Method.get 0).1.status = 200 →
          ∃ rf2, getRegistrationFile wDb2 0 = .ok rf2 ∧ rf2.file ≠ []
            ∧ (downloadRegistrationFileHandler wDb2 Method.get 0).1.body
              = Body.binary rf2.file (detectContentType rf2.file)
                ("attachment; filename=\"" ++ rf2.filename ++ "\"")
                (if rf2.fileSize > 0 then some rf2.fileSize else none))) :=
  ⟨⟨by decide, by decide, rfl, rfl⟩,
   C5_empty_blob_as_not_found wDb2 2 7 wEmptyCvUser wEmptyFile 1 0
     (by decide) (by decide) rfl rfl⟩

/-- Witness for C7 at a store with one CV-less and one CV-carrying
user. -/
theorem C7_download_url_iff_hasCV_witness :
    ((getUsersHandler wDb2 Method.get ⟨false, "h"⟩).1.body
        = Body.usersJson
            [⟨1, some "bob", none, 5, false, none⟩,
             ⟨2, none, none, 5, true,
              some "https://safaraya-service.onrender.com/users/2/cv"⟩]
      ∧ (⟨2, none, none, 5, true,
          some "https://safaraya-service.onrender.com/users/2/cv"⟩ : User)
          ∈ [⟨1, some "bob", none, 5, false, none⟩,
             (⟨2, none, none, 5, true,
              some "https://safaraya-service.onrender.com/users/2/cv"⟩ : User)])
    ∧ (User.cvFileDownloadURL
        ⟨2, none, none, 5, true,
         some "https://safaraya-service.onrender.com/users/2/cv"⟩).isSome
      = User.hasCV
        ⟨2, none, none, 5, true,
         some "https://safaraya-service.onrender.com/users/2/cv"⟩ :=
  ⟨⟨by decide, by decide⟩,
   C7_download_url_iff_hasCV wDb2 ⟨false, "h"⟩
     [⟨1, some "bob", none, 5, false, none⟩,
      ⟨2, none, none, 5, true,
       some "https://safaraya-service.onrender.com/users/2/cv"⟩]
     ⟨2, none, none, 5, true,
      some "https://safaraya-service.onrender.com/users/2/cv"⟩
     (by decide) (by decide)⟩

/-- Witness for C9 at a GET request against every mutating handler. -/
theorem C9_wrong_method_rejected_witness :
    (Method.get ≠ Method.post)
    ∧ (registrationsHandler wDb Method.get none = (errResp 405 "method_not_allowed", wDb)
      ∧ createRegistrationHandler wDb Method.get none
          = (errResp 405 "method_not_allowed", wDb)
      ∧ createUserHandler wDb Method.get none = (errResp 405 "method_not_allowed", wDb)
      ∧ uploadUserCVHandler wDb Method.get 1 ⟨true, none⟩
          = (errResp 405 "method_not_allowed", wDb)
      ∧ uploadRegistrationFileHandler wDb Method.get wUUID ⟨true, "t", none⟩
          = (errResp 405 "method_not_allowed", wDb)
      ∧ registrationFilesHandler wDb Method.get ⟨true, wUUID, "t", none⟩
          = (errResp 405 "method_not_allowed", wDb)) :=
  ⟨by decide,
   C9_wrong_method_rejected wDb Method.get 1 wUUID ⟨true, none⟩ ⟨true, "t", none⟩
     ⟨true, wUUID, "t", none⟩ none none (by decide)⟩

/-- Witness for C10 at a request whose required strings carry
whitespace padding. -/
theorem C10_required_strings_verbatim_witness :
    (trimSpace wReq10.fullName ≠ "" ∧ trimSpace wReq10.whatsappNumber ≠ ""
      ∧ (∀ v : Int, wReq10.applicantCount = some v → 1 ≤ v))
    ∧ (∃ row : RegistrationRow,
        createRegistrationHandler wDb Method.post (some wReq10)
          = ({ status := 201,
               body := Body.registrationJson (insertRegistration wDb wReq10).1 },
             (insertRegistration wDb wReq10).2)
        ∧ (insertRegistration wDb wReq10).1.fullName = wReq10.fullName
        ∧ (insertRegistration wDb wReq10).1.whatsappNumber = wReq10.whatsappNumber
        ∧ (insertRegistration wDb wReq10).2.registrations = wDb.registrations ++ [row]
        ∧ row.fullName = wReq10.fullName
        ∧ row.whatsappNumber = wReq10.whatsappNumber) :=
  ⟨⟨by decide, by decide, fun v h => Option.noConfusion h⟩,
   C10_required_strings_verbatim wDb wReq10 (by decide) (by decide)
     (fun v h => Option.noConfusion h)⟩

/-- Witness for C6 at a concrete store, user id and payload. -/
theorem C6_saveUserCV_rows_affected_witness :
    (saveUserCV wDb 1 [9] = .error RepoError.userNotFound
      ↔ (wDb.users.filter fun r => r.id == 1).length = 0)
    ∧ ((wDb.users.filter fun r => r.id == 1).length ≠ 0 →
      saveUserCV wDb 1 [9]
        = .ok { wDb with users := wDb.users.map fun r =>
            if r.id == 1 then { r with cvFile := NullBytes.val [9] } else r }) :=
  C6_saveUserCV_rows_affected wDb 1 [9]

/-- Witness for C8 at a concrete store and request. -/
theorem C8_insertUser_roundtrip_witness :
    ∃ row : UserRow,
      (insertUser wDb wReq8).2.users = wDb.users ++ [row]
      ∧ row.name = NullString.encode wReq8.name
      ∧ row.age = NullInt.encode wReq8.age
      ∧ (insertUser wDb wReq8).1.name = NullString.decode row.name
      ∧ (insertUser wDb wReq8).1.age = NullInt.decode row.age
      ∧ (insertUser wDb wReq8).1.name = wReq8.name
      ∧ (insertUser wDb wReq8).1.age = wReq8.age
      ∧ createUserHandler wDb Method.post (some wReq8)
        = ({ status := 201, body := Body.userJson (insertUser wDb wReq8).1 },
           (insertUser wDb wReq8).2) :=
  C8_insertUser_roundtrip wDb wReq8

end Safaraya
